import Mathlib

/-!
Verification of the excel-mcp server core (`py/excel_mcp_server.py` and
`py/src/excel/wrapper.py`) against its design specification.

The Python code is shallowly embedded: environment lookups become an explicit
`Env` record, filesystem canonicalization (`Path.resolve`) becomes an abstract
resolver function from path strings to canonical component lists, and the
external Java process becomes an abstract `OsBehavior` mapping a command vector
either to a completed process (exit code, stdout, stderr) or to a launch
failure. Exceptions become `Except` error values.
-/

/-- The environment variables read by the server. `none` models an unset
variable. -/
structure Env where
  excelSharedDirVar : Option String
  excelPublicBaseUrlVar : Option String

/-- `DEFAULT_SHARED_DIR` in `excel_mcp_server.py`. -/
def DEFAULT_SHARED_DIR : String := "/mnt/data"

/-- `DEFAULT_PUBLIC_BASE_URL` in `excel_mcp_server.py` (intentionally empty). -/
def DEFAULT_PUBLIC_BASE_URL : String := ""

/-- Python `s.rstrip("/")`: drop every trailing slash. -/
def rstripSlash (s : String) : String :=
  ⟨(s.data.reverse.dropWhile (fun c => c = '/')).reverse⟩

/-- `get_shared_directory`: `EXCEL_SHARED_DIR` env var, else the default.
(The `os.makedirs` side effect does not affect the returned value.) -/
def get_shared_directory (env : Env) : String :=
  env.excelSharedDirVar.getD DEFAULT_SHARED_DIR

/-- `get_public_base_url`: `EXCEL_PUBLIC_BASE_URL` env var (else the empty
default), with trailing slashes stripped. -/
def get_public_base_url (env : Env) : String :=
  rstripSlash (env.excelPublicBaseUrlVar.getD DEFAULT_PUBLIC_BASE_URL)

/-- Abstract model of `pathlib.Path.resolve()`: maps a path string to the
component list of its canonical absolute form (symlinks and `..` already
eliminated by the operating system). The root `/` itself is the empty list. -/
def Resolver : Type := String → List String

/-- Split a character list on `/`, accumulating the current component in
reverse. -/
def splitSlashChars : List Char → List Char → List String
  | [], acc => [⟨acc.reverse⟩]
  | c :: cs, acc =>
    if c = '/' then (⟨acc.reverse⟩ : String) :: splitSlashChars cs []
    else splitSlashChars cs (c :: acc)

/-- A concrete resolver for a filesystem without symlinks where the given
paths are already canonical: split on `/` and drop empty components. -/
def plainResolve : Resolver :=
  fun s => (splitSlashChars s.data []).filter (fun t => t ≠ "")

deriving instance DecidableEq for Except

/-- `PurePath.relative_to` on canonical component lists: strip the root's
components off the front of the candidate's components, or fail. -/
def relative_to : List String → List String → Option (List String)
  | p, [] => some p
  | [], _ :: _ => none
  | a :: p, b :: r => if a = b then relative_to p r else none

/-- Render a canonical absolute component list back to a path string
(`str(Path(...))`), used in the diagnostic message. -/
def renderAbs (parts : List String) : String :=
  "/" ++ String.intercalate "/" parts

/-- `PurePath.as_posix` of a relative component list (`.` for the empty
relative path). -/
def relPosix : List String → String
  | [] => "."
  | parts => String.intercalate "/" parts

/-- Uppercase hexadecimal digit, as used by `urllib.parse.quote`. -/
def hexDigit (n : Nat) : Char :=
  match n with
  | 0 => '0' | 1 => '1' | 2 => '2' | 3 => '3' | 4 => '4'
  | 5 => '5' | 6 => '6' | 7 => '7' | 8 => '8' | 9 => '9'
  | 10 => 'A' | 11 => 'B' | 12 => 'C' | 13 => 'D' | 14 => 'E' | _ => 'F'

/-- The bytes `urllib.parse.quote` leaves unescaped with the default
`safe='/'`: ASCII letters, digits, `_.-~`, and `/`. -/
def quoteSafeByte (b : Nat) : Bool :=
  (65 ≤ b && b ≤ 90) || (97 ≤ b && b ≤ 122) || (48 ≤ b && b ≤ 57) ||
  b == 95 || b == 46 || b == 45 || b == 126 || b == 47

/-- UTF-8 encoding of one code point, as a list of byte values. -/
def utf8Bytes (c : Char) : List Nat :=
  let n := c.toNat
  if n < 128 then [n]
  else if n < 2048 then [192 + n / 64, 128 + n % 64]
  else if n < 65536 then [224 + n / 4096, 128 + (n / 64) % 64, 128 + n % 64]
  else [240 + n / 262144, 128 + (n / 4096) % 64, 128 + (n / 64) % 64, 128 + n % 64]

/-- Percent-encode one character. Safe bytes are always ASCII, so a safe
character passes through unchanged; every other character has each of its
UTF-8 bytes written as `%XX`. -/
def quoteChar (c : Char) : List Char :=
  if quoteSafeByte c.toNat then [c]
  else ((utf8Bytes c).map (fun b => ['%', hexDigit (b / 16), hexDigit (b % 16)])).flatten

/-- `urllib.parse.quote` with the default `safe='/'`. -/
def quote (s : String) : String :=
  ⟨(s.data.map quoteChar).flatten⟩

/-- The two failures `build_download_url_for_path` can raise: `RuntimeError`
when the public base URL is unset, `ValueError` when the path is not under
the shared directory. Each carries its message. -/
inductive UrlError where
  | runtimeNotConfigured (msg : String)
  | valuePathNotContained (msg : String)
deriving DecidableEq

/-- The `RuntimeError` message for a missing `EXCEL_PUBLIC_BASE_URL`. -/
def notConfiguredMsg : String :=
  "EXCEL_PUBLIC_BASE_URL is not configured. Set it to the public base URL for this MCP server (e.g. https://your-domain.example or http://your-host-or-proxy:8585)."

/-- `build_download_url_for_path`: check the configured origin, resolve both
the shared directory and the candidate path, take the relative path, and
build `<origin>/files/<percent-encoded relative posix path>`. -/
def build_download_url_for_path (res : Resolver) (env : Env) (file_path : String) :
    Except UrlError String :=
  let base_url := get_public_base_url env
  if base_url = "" then
    Except.error (UrlError.runtimeNotConfigured notConfiguredMsg)
  else
    let shared_dir := res (get_shared_directory env)
    let p := res file_path
    match relative_to p shared_dir with
    | none =>
        Except.error (UrlError.valuePathNotContained
          ("File path must be under the shared directory to be downloadable. EXCEL_SHARED_DIR="
            ++ renderAbs shared_dir ++ " but got path=" ++ renderAbs p))
    | some rel => Except.ok (base_url ++ "/files/" ++ quote (relPosix rel))

/-- `p` lies in the directory tree rooted at `root` (both canonical). -/
def IsDescendant (root p : List String) : Prop :=
  ∃ rest, p = root ++ rest

/-- Example deployment: shared root `/mnt/data`, origin `https://ex.com`. -/
def exEnv : Env :=
  { excelSharedDirVar := some "/mnt/data", excelPublicBaseUrlVar := some "https://ex.com" }

/-- Deployment with no public base URL configured. -/
def emptyBaseEnv : Env :=
  { excelSharedDirVar := some "/mnt/data", excelPublicBaseUrlVar := none }

/-- The containment diagnostic message for candidate `/etc/passwd` against
shared root `/mnt/data`. -/
def pcPasswdMsg : String :=
  "File path must be under the shared directory to be downloadable. EXCEL_SHARED_DIR=/mnt/data but got path=/etc/passwd"

/-- `subprocess.CompletedProcess` with `capture_output=True, text=True`:
exit code, captured stdout text, captured stderr text. -/
structure CompletedProcess where
  returncode : Int
  stdout : String
  stderr : String
deriving DecidableEq

/-- Abstract behavior of the operating system for one command vector: either
the process runs to completion (`Sum.inl`), or it cannot be started and the
launch failure description is returned (`Sum.inr`, the `OSError` /
`FileNotFoundError` text). -/
def OsBehavior : Type := List String → Sum CompletedProcess String

/-- An operating system on which every launch completes with outcome `cp`. -/
def constOs (cp : CompletedProcess) : OsBehavior := fun _ => Sum.inl cp

/-- An operating system on which no process can be started. -/
def launchFailOs (msg : String) : OsBehavior := fun _ => Sum.inr msg

/-- `subprocess.run(cmd, check=False, capture_output=True, text=True)`:
a completed process is returned whatever its exit code; a launch failure
raises (propagates as `Except.error`), since `_run_java` has no handler. -/
def subprocess_run (os : OsBehavior) (cmd : List String) :
    Except String CompletedProcess :=
  match os cmd with
  | Sum.inl cp => Except.ok cp
  | Sum.inr launchErr => Except.error launchErr

/-- `_java_classpath`: `<repo>/java/jars/*:<repo>/java/dist`. -/
def java_classpath (repoRoot : String) : String :=
  repoRoot ++ "/java/jars/" ++ "*" ++ ":" ++ repoRoot ++ "/java/dist"

/-- The command vector built by `_run_java`. -/
def run_java_cmd (repoRoot class_name : String) (args : List String) : List String :=
  ["java", "-cp", java_classpath repoRoot, class_name] ++ args

/-- `_run_java`: build the Java command line and execute it. -/
def run_java (os : OsBehavior) (repoRoot class_name : String) (args : List String) :
    Except String CompletedProcess :=
  subprocess_run os (run_java_cmd repoRoot class_name args)

/-- Whether an `Except` value is a success. -/
def exceptIsOk {ε α : Type} : Except ε α → Bool
  | Except.ok _ => true
  | Except.error _ => false

/-- The exceptions the Python wrappers can raise: a propagating `OSError`
from process launch, a `RuntimeError` from a non-zero exit, or a
`ValueError` from result decoding. -/
inductive PyErr where
  | osError (msg : String)
  | runtimeError (msg : String)
  | valueError (msg : String)
deriving DecidableEq

/-- Python string `or`: the left operand unless it is empty (falsy). -/
def pyOrStr (a b : String) : String := if a = "" then b else a

/-- Python `str.isspace` characters relevant to `str.strip()`. -/
def isPySpace (c : Char) : Bool :=
  c = ' ' || c = '\t' || c = '\n' || c = '\r' || c.toNat = 11 || c.toNat = 12

/-- Python `s.strip()`. -/
def pyStrip (s : String) : String :=
  ⟨((s.data.dropWhile isPySpace).reverse.dropWhile isPySpace).reverse⟩

/-- `sub` is a leading segment of `l`. -/
def strStarts : List Char → List Char → Bool
  | [], _ => true
  | _ :: _, [] => false
  | a :: as, b :: bs => a == b && strStarts as bs

/-- `sub` occurs somewhere in `l`. -/
def strFind (sub : List Char) : List Char → Bool
  | [] => sub.isEmpty
  | c :: cs => strStarts sub (c :: cs) || strFind sub cs

/-- Python `sub in s` for strings: substring containment. -/
def pyInStr (sub s : String) : Bool := strFind sub.data s.data

/-- One JSON-compatible cell value of a 2-D data payload. -/
inductive Scalar where
  | null
  | bool (b : Bool)
  | num (n : Int)
  | str (s : String)
deriving DecidableEq

/-- The escape `json.dumps` applies to one character (with
`ensure_ascii=False`, so non-ASCII characters pass through). -/
def jsonEscapeChar (c : Char) : List Char :=
  if c = '"' then ['\\', '"']
  else if c = '\\' then ['\\', '\\']
  else if c = '\n' then ['\\', 'n']
  else if c = '\r' then ['\\', 'r']
  else if c = '\t' then ['\\', 't']
  else if c.toNat = 8 then ['\\', 'b']
  else if c.toNat = 12 then ['\\', 'f']
  else if c.toNat < 32 then
    ['\\', 'u', '0', '0', hexDigit (c.toNat / 16), hexDigit (c.toNat % 16)]
  else [c]

/-- `json.dumps` of a string literal body. -/
def jsonEscape (s : String) : String :=
  ⟨(s.data.map jsonEscapeChar).flatten⟩

/-- `json.dumps` of one scalar. -/
def dumpScalar : Scalar → String
  | Scalar.null => "null"
  | Scalar.bool true => "true"
  | Scalar.bool false => "false"
  | Scalar.num n => toString n
  | Scalar.str s => "\"" ++ jsonEscape s ++ "\""

/-- `json.dumps` of one row (default separators, so `, ` between items). -/
def dumpRow (r : List Scalar) : String :=
  "[" ++ String.intercalate ", " (r.map dumpScalar) ++ "]"

/-- `json.dumps(data, ensure_ascii=False)` for the 2-D matrices these tools
exchange. -/
def json_dumps_matrix (m : List (List Scalar)) : String :=
  "[" ++ String.intercalate ", " (m.map dumpRow) ++ "]"

/-- Wrapper `create_excel`: run `jp.isoittech.CreateExcelTool`; on a non-zero
exit raise `RuntimeError(stderr or generic message)`. -/
def create_excel (os : OsBehavior) (repoRoot file_path sheet_name : String) :
    Except PyErr Unit :=
  match run_java os repoRoot "jp.isoittech.CreateExcelTool" [file_path, sheet_name] with
  | Except.error e => Except.error (PyErr.osError e)
  | Except.ok result =>
    if result.returncode ≠ 0 then
      Except.error (PyErr.runtimeError
        (pyOrStr result.stderr ("CreateExcelTool failed: " ++ toString result.returncode)))
    else Except.ok ()

/-- Wrapper `read_excel`: run `jp.isoittech.ReadExcelTool` and decode stdout
as a JSON matrix; blank stdout decodes as `[]`. `json_loads` is Python's
`json.loads` (standard library, outside this repository), which raises
`JSONDecodeError`, a `ValueError`. -/
def read_excel (os : OsBehavior)
    (json_loads : String → Except String (List (List Scalar)))
    (repoRoot file_path sheet_name range_str : String) :
    Except PyErr (List (List Scalar)) :=
  match run_java os repoRoot "jp.isoittech.ReadExcelTool" [file_path, sheet_name, range_str] with
  | Except.error e => Except.error (PyErr.osError e)
  | Except.ok result =>
    if result.returncode ≠ 0 then
      Except.error (PyErr.runtimeError
        (pyOrStr result.stderr ("ReadExcelTool failed: " ++ toString result.returncode)))
    else
      match json_loads (pyOrStr (pyStrip result.stdout) "[]") with
      | Except.ok v => Except.ok v
      | Except.error m => Except.error (PyErr.valueError m)

/-- The full command vector `write_excel` executes: the 2-D payload is
serialized by `json.dumps` into one single argument. -/
def write_excel_cmd (repoRoot file_path sheet_name : String)
    (data : List (List Scalar)) : List String :=
  run_java_cmd repoRoot "jp.isoittech.WriteExcelTool"
    [file_path, sheet_name, json_dumps_matrix data]

/-- Wrapper `write_excel`. -/
def write_excel (os : OsBehavior) (repoRoot file_path sheet_name : String)
    (data : List (List Scalar)) : Except PyErr Unit :=
  match subprocess_run os (write_excel_cmd repoRoot file_path sheet_name data) with
  | Except.error e => Except.error (PyErr.osError e)
  | Except.ok result =>
    if result.returncode ≠ 0 then
      Except.error (PyErr.runtimeError
        (pyOrStr result.stderr ("WriteExcelTool failed: " ++ toString result.returncode)))
    else Except.ok ()

/-- Wrapper validate_formula_syntax: zero exit yields the boolean
`"OK" in stdout`. -/
def validate_formula_syntax (os : OsBehavior)
    (repoRoot file_path sheet_name formula : String) : Except PyErr Bool :=
  match run_java os repoRoot "jp.isoittech.ValidateFormulaSyntaxTool"
      [file_path, sheet_name, formula] with
  | Except.error e => Except.error (PyErr.osError e)
  | Except.ok result =>
    if result.returncode ≠ 0 then
      Except.error (PyErr.runtimeError
        (pyOrStr result.stderr ("ValidateFormulaSyntaxTool failed: " ++ toString result.returncode)))
    else Except.ok (pyInStr "OK" result.stdout)

/-- Wrapper `validate_excel_range`: the optional end cell is appended only
when present; zero exit yields the boolean `"OK" in stdout`. -/
def validate_excel_range (os : OsBehavior)
    (repoRoot file_path sheet_name start_cell : String)
    (end_cell : Option String) : Except PyErr Bool :=
  let args := [file_path, sheet_name, start_cell] ++
    (match end_cell with | some e => [e] | none => [])
  match run_java os repoRoot "jp.isoittech.ValidateExcelRangeTool" args with
  | Except.error e => Except.error (PyErr.osError e)
  | Except.ok result =>
    if result.returncode ≠ 0 then
      Except.error (PyErr.runtimeError
        (pyOrStr result.stderr ("ValidateExcelRangeTool failed: " ++ toString result.returncode)))
    else Except.ok (pyInStr "OK" result.stdout)

/-- The full command vector `create_pivot_table` executes: the row, value
and column name lists are each comma-joined into one single argument
(`",".join(...)`); a missing column list becomes the empty string. -/
def create_pivot_table_cmd (repoRoot file_path sheet_name data_range : String)
    (rows values : List String) (columns : Option (List String))
    (agg_func : String) : List String :=
  let rows_str := String.intercalate "," rows
  let values_str := String.intercalate "," values
  let columns_str := match columns with
    | some cs => String.intercalate "," cs
    | none => ""
  run_java_cmd repoRoot "jp.isoittech.CreatePivotTableTool"
    [file_path, sheet_name, data_range, rows_str, values_str, columns_str, agg_func]

/-- Wrapper `create_pivot_table`: zero exit yields the trimmed stdout as the
confirmation message. -/
def create_pivot_table (os : OsBehavior) (repoRoot file_path sheet_name data_range : String)
    (rows values : List String) (columns : Option (List String))
    (agg_func : String) : Except PyErr String :=
  match subprocess_run os
      (create_pivot_table_cmd repoRoot file_path sheet_name data_range rows values columns agg_func) with
  | Except.error e => Except.error (PyErr.osError e)
  | Except.ok result =>
    if result.returncode ≠ 0 then
      Except.error (PyErr.runtimeError
        (pyOrStr result.stderr ("CreatePivotTableTool failed: " ++ toString result.returncode)))
    else Except.ok (pyStrip result.stdout)

/-- Modelled from the spec: the `append_rows` wrapper is re-exported by the
package (`py/src/excel/__init__.py`) but its implementation is absent from
the sources. Per the spec (sections 4.3 and 8), the external tool scans the
anchor column and reports the first empty row (0-based), and this wrapper
returns that reported index unchanged, without re-deriving it. The tool's
report is the `reportedFirstEmptyRow` parameter. -/
def append_rows (reportedFirstEmptyRow : Nat) (file_path sheet_name : String)
    (rows : List (List Scalar)) (anchor_column : String) : Nat :=
  let _ := (file_path, sheet_name, rows, anchor_column)
  reportedFirstEmptyRow

/-- The failures a mutating MCP tool handler can propagate: the wrapped
mutation's exception or `build_download_url_for_path`'s exception. -/
inductive ToolErr where
  | mutationFailure (e : PyErr)
  | urlFailure (e : UrlError)
deriving DecidableEq

/-- The response dict of `tool_create_excel` / `tool_write_excel`. -/
structure ToolResponse where
  message : String
  path : String
  download_url : String
deriving DecidableEq

/-- `tool_create_excel`: run the mutation, then build the response dict whose
`download_url` entry is computed by `build_download_url_for_path` (so a URL
failure aborts the response). -/
def tool_create_excel (os : OsBehavior) (repoRoot : String) (res : Resolver)
    (env : Env) (path sheet_name : String) : Except ToolErr ToolResponse :=
  match create_excel os repoRoot path sheet_name with
  | Except.error e => Except.error (ToolErr.mutationFailure e)
  | Except.ok _ =>
    match build_download_url_for_path res env path with
    | Except.error e => Except.error (ToolErr.urlFailure e)
    | Except.ok url =>
      Except.ok
        { message := "Created Excel workbook at " ++ path ++ " with sheet '" ++ sheet_name ++ "'"
          path := path
          download_url := url }

/-- `tool_write_excel`, same combined-outcome shape as `tool_create_excel`. -/
def tool_write_excel (os : OsBehavior) (repoRoot : String) (res : Resolver)
    (env : Env) (path sheet_name : String) (data : List (List Scalar)) :
    Except ToolErr ToolResponse :=
  match write_excel os repoRoot path sheet_name data with
  | Except.error e => Except.error (ToolErr.mutationFailure e)
  | Except.ok _ =>
    match build_download_url_for_path res env path with
    | Except.error e => Except.error (ToolErr.urlFailure e)
    | Except.ok url =>
      Except.ok
        { message := "Wrote " ++ toString data.length ++ " rows to " ++ path ++ ":" ++ sheet_name ++ "!A1"
          path := path
          download_url := url }

/-- The response dict of `tool_append_rows`. -/
structure AppendResponse where
  message : String
  path : String
  anchor_column : String
  start_row : Nat
  download_url : String
deriving DecidableEq

/-- `tool_append_rows`: append via the wrapper, then surface the wrapper's
`start_row` verbatim in the response. -/
def tool_append_rows (reportedFirstEmptyRow : Nat) (res : Resolver) (env : Env)
    (path sheet_name : String) (rows : List (List Scalar)) (anchor_column : String) :
    Except UrlError AppendResponse :=
  let start_row := append_rows reportedFirstEmptyRow path sheet_name rows anchor_column
  match build_download_url_for_path res env path with
  | Except.error e => Except.error e
  | Except.ok url =>
    Except.ok
      { message := "Appended " ++ toString rows.length ++ " rows to " ++ path ++ ":" ++ sheet_name ++
          " at row " ++ toString (start_row + 1) ++ " (anchor=" ++ anchor_column ++ ")"
        path := path
        anchor_column := anchor_column
        start_row := start_row
        download_url := url }

/-- The `start_row` field of a successful append response, if any. -/
def startRowOf : Except UrlError AppendResponse → Option Nat
  | Except.ok r => some r.start_row
  | Except.error _ => none

theorem relative_to_eq_some (p r rel : List String) :
    relative_to p r = some rel ↔ p = r ++ rel := by
  induction r generalizing p with
  | nil => simp [relative_to]
  | cons b bs ih =>
    cases p with
    | nil => simp [relative_to]
    | cons a as =>
      by_cases hab : a = b
      · subst hab
        simp [relative_to, ih]
      · simp [relative_to, hab]

/-- C1: with a non-empty public base URL configured, `build_download_url_for_path`
returns a URL exactly when the canonical resolved form of the candidate path is a
descendant of the canonical resolved form of the shared root (for every resolver,
so `..`/symlink escapes are covered by paths whose resolved form leaves the root);
otherwise it raises the PathNotContained `ValueError`. -/
theorem c1_url_iff_descendant (res : Resolver) (env : Env) (p : String)
    (hbase : get_public_base_url env ≠ "") :
    ((∃ u, build_download_url_for_path res env p = Except.ok u) ↔
      IsDescendant (res (get_shared_directory env)) (res p)) ∧
    (¬ IsDescendant (res (get_shared_directory env)) (res p) →
      ∃ m, build_download_url_for_path res env p =
        Except.error (UrlError.valuePathNotContained m)) := by
  cases hrel : relative_to (res p) (res (get_shared_directory env)) with
  | none =>
    have hnd : ¬ IsDescendant (res (get_shared_directory env)) (res p) := by
      rintro ⟨rest, hrest⟩
      have h := (relative_to_eq_some (res p) (res (get_shared_directory env)) rest).mpr hrest
      rw [h] at hrel
      exact Option.noConfusion hrel
    constructor
    · constructor
      · rintro ⟨u, hu⟩
        simp only [build_download_url_for_path, if_neg hbase, hrel] at hu
        exact Except.noConfusion hu
      · intro h
        exact absurd h hnd
    · intro _
      exact ⟨"File path must be under the shared directory to be downloadable. EXCEL_SHARED_DIR="
          ++ renderAbs (res (get_shared_directory env)) ++ " but got path=" ++ renderAbs (res p),
        by simp only [build_download_url_for_path, if_neg hbase, hrel]⟩
  | some rel =>
    have hd : IsDescendant (res (get_shared_directory env)) (res p) :=
      ⟨rel, (relative_to_eq_some (res p) (res (get_shared_directory env)) rel).mp hrel⟩
    constructor
    · constructor
      · intro _
        exact hd
      · intro _
        exact ⟨get_public_base_url env ++ "/files/" ++ quote (relPosix rel),
          by simp only [build_download_url_for_path, if_neg hbase, hrel]⟩
    · intro h
      exact absurd hd h

/-- C1 witness at shared root `/mnt/data`, origin `https://ex.com`, candidate
`/mnt/data/book.xlsx`. -/
theorem c1_url_iff_descendant_witness :
    ((∃ u, build_download_url_for_path plainResolve exEnv "/mnt/data/book.xlsx" = Except.ok u) ↔
      IsDescendant (plainResolve (get_shared_directory exEnv)) (plainResolve "/mnt/data/book.xlsx")) ∧
    (¬ IsDescendant (plainResolve (get_shared_directory exEnv)) (plainResolve "/mnt/data/book.xlsx") →
      ∃ m, build_download_url_for_path plainResolve exEnv "/mnt/data/book.xlsx" =
        Except.error (UrlError.valuePathNotContained m)) :=
  c1_url_iff_descendant plainResolve exEnv "/mnt/data/book.xlsx" (by decide)

/-- C2: URL building is fail-closed: whenever the normalized public origin is
empty, `build_download_url_for_path` raises the "not configured" `RuntimeError`,
even for a path perfectly contained in the shared root; it never falls back to
another origin. -/
theorem c2_fail_closed_empty_origin (res : Resolver) (env : Env) (p : String)
    (hbase : get_public_base_url env = "")
    (_hcont : IsDescendant (res (get_shared_directory env)) (res p)) :
    build_download_url_for_path res env p =
      Except.error (UrlError.runtimeNotConfigured notConfiguredMsg) := by
  simp only [build_download_url_for_path, if_pos hbase]

/-- C2 witness: unset origin, candidate `/mnt/data/book.xlsx` contained in
`/mnt/data`. -/
theorem c2_fail_closed_empty_origin_witness :
    build_download_url_for_path plainResolve emptyBaseEnv "/mnt/data/book.xlsx" =
      Except.error (UrlError.runtimeNotConfigured notConfiguredMsg) :=
  c2_fail_closed_empty_origin plainResolve emptyBaseEnv "/mnt/data/book.xlsx" (by decide)
    ⟨["book.xlsx"], by decide⟩

/-- C3: for a contained path and a configured origin, the returned URL is the
origin with trailing slashes stripped, then `/files/`, then the root-relative
forward-slash path percent-encoded. -/
theorem c3_url_shape (res : Resolver) (env : Env) (p : String) (rel : List String)
    (hbase : get_public_base_url env ≠ "")
    (hrel : relative_to (res p) (res (get_shared_directory env)) = some rel) :
    build_download_url_for_path res env p =
      Except.ok (rstripSlash (env.excelPublicBaseUrlVar.getD DEFAULT_PUBLIC_BASE_URL) ++
        "/files/" ++ quote (relPosix rel)) := by
  simp only [build_download_url_for_path, if_neg hbase, hrel]
  rfl

/-- C3 witness: shared root `/mnt/data`, origin `https://ex.com`, path
`/mnt/data/book.xlsx` yields exactly `https://ex.com/files/book.xlsx`. -/
theorem c3_url_shape_witness :
    build_download_url_for_path plainResolve exEnv "/mnt/data/book.xlsx" =
      Except.ok "https://ex.com/files/book.xlsx" := by
  have h := c3_url_shape plainResolve exEnv "/mnt/data/book.xlsx" ["book.xlsx"]
    (by decide) (by decide)
  exact h.trans (by decide)

/-- C4 counterexample: when the underlying process cannot be started,
`_run_java` does not yield a Process Outcome with a sentinel exit code —
the launch failure propagates as an exception (`subprocess.run` has no
handler in `_run_java`). -/
theorem c4_launch_failure_cex :
    run_java (launchFailOs "FileNotFoundError: java") "repo" "jp.isoittech.CreateExcelTool"
      ["/mnt/data/b.xlsx", "Sheet1"] = Except.error "FileNotFoundError: java" ∧
    exceptIsOk (run_java (launchFailOs "FileNotFoundError: java") "repo"
      "jp.isoittech.CreateExcelTool" ["/mnt/data/b.xlsx", "Sheet1"]) = false :=
  ⟨rfl, rfl⟩

/-- C4 (amended): whenever the external process launches and runs to
completion, `_run_java` returns its Process Outcome (exit code, stdout,
stderr) and never raises — a non-zero exit code included; only a launch
failure propagates as an exception. -/
theorem c4_no_raise_nonzero_exit (os : OsBehavior) (repoRoot class_name : String)
    (args : List String) (cp : CompletedProcess)
    (hos : os (run_java_cmd repoRoot class_name args) = Sum.inl cp) :
    run_java os repoRoot class_name args = Except.ok cp := by
  simp only [run_java, subprocess_run, hos]

/-- C4 witness: a process exiting with code 3 is returned as an outcome, not
raised. -/
theorem c4_no_raise_nonzero_exit_witness :
    run_java (constOs ⟨3, "", "boom"⟩) "repo" "jp.isoittech.CreateExcelTool"
      ["/mnt/data/b.xlsx", "Sheet1"] = Except.ok ⟨3, "", "boom"⟩ :=
  c4_no_raise_nonzero_exit (constOs ⟨3, "", "boom"⟩) "repo" "jp.isoittech.CreateExcelTool"
    ["/mnt/data/b.xlsx", "Sheet1"] ⟨3, "", "boom"⟩ rfl

/-- C5 counterexample: mutating `/etc/passwd` with a configured origin: the
external mutation succeeds, yet the tool's combined outcome is only the
PathNotContained failure — no response dict is produced, so the mutation
result (the confirmation message) is not reported separately. -/
theorem c5_mutation_result_lost_cex :
    create_excel (constOs ⟨0, "", ""⟩) "repo" "/etc/passwd" "Sheet1" = Except.ok () ∧
    tool_create_excel (constOs ⟨0, "", ""⟩) "repo" plainResolve exEnv "/etc/passwd" "Sheet1" =
      Except.error (ToolErr.urlFailure (UrlError.valuePathNotContained pcPasswdMsg)) ∧
    exceptIsOk (tool_create_excel (constOs ⟨0, "", ""⟩) "repo" plainResolve exEnv
      "/etc/passwd" "Sheet1") = false :=
  ⟨rfl, rfl, rfl⟩

/-- C5 (amended): when the mutation step succeeds but URL construction fails,
the URL failure is surfaced as the operation's error (never silently
dropped), tagged as a URL failure distinct from a mutation failure, and no
URL is returned; the mutation's confirmation message, however, is not
reported — the error replaces the whole combined response. -/
theorem c5_url_failure_surfaced (os : OsBehavior) (repoRoot : String) (res : Resolver)
    (env : Env) (path sheet_name : String) (data : List (List Scalar)) (e : UrlError)
    (hmc : create_excel os repoRoot path sheet_name = Except.ok ())
    (hmw : write_excel os repoRoot path sheet_name data = Except.ok ())
    (hurl : build_download_url_for_path res env path = Except.error e) :
    tool_create_excel os repoRoot res env path sheet_name =
      Except.error (ToolErr.urlFailure e) ∧
    tool_write_excel os repoRoot res env path sheet_name data =
      Except.error (ToolErr.urlFailure e) := by
  constructor
  · simp only [tool_create_excel, hmc, hurl]
  · simp only [tool_write_excel, hmw, hurl]

/-- C5 witness: writing to `/etc/passwd` under shared root `/mnt/data`. -/
theorem c5_url_failure_surfaced_witness :
    tool_write_excel (constOs ⟨0, "", ""⟩) "repo" plainResolve exEnv "/etc/passwd" "Sheet1"
      [[Scalar.str "a"]] =
      Except.error (ToolErr.urlFailure (UrlError.valuePathNotContained pcPasswdMsg)) :=
  (c5_url_failure_surfaced (constOs ⟨0, "", ""⟩) "repo" plainResolve exEnv "/etc/passwd"
    "Sheet1" [[Scalar.str "a"]] (UrlError.valuePathNotContained pcPasswdMsg)
    rfl rfl rfl).2

/-- C6 counterexample: `create_pivot_table` serializes the list of row-label
column names `["Region", "Category"]` as the comma-joined text
`Region,Category`, not as JSON text — the JSON serialization of that list
appears nowhere in the argument vector. -/
theorem c6_pivot_columns_not_json_cex :
    create_pivot_table_cmd "repo" "/mnt/data/b.xlsx" "Sheet1" "A1:D100"
      ["Region", "Category"] ["Sales"] none "sum" =
      ["java", "-cp", java_classpath "repo", "jp.isoittech.CreatePivotTableTool",
        "/mnt/data/b.xlsx", "Sheet1", "A1:D100", "Region,Category", "Sales", "", "sum"] ∧
    dumpRow [Scalar.str "Region", Scalar.str "Category"] ≠ "Region,Category" ∧
    (create_pivot_table_cmd "repo" "/mnt/data/b.xlsx" "Sheet1" "A1:D100"
      ["Region", "Category"] ["Sales"] none "sum").contains
        (dumpRow [Scalar.str "Region", Scalar.str "Category"]) = false := by
  decide

/-- C6 (amended): each structured parameter travels as one single entry of
the process argument vector, never split across entries — the vector's length
is independent of the payload's size; 2-D matrices are serialized as JSON
text (`write_excel`), while the column-name lists of `create_pivot_table`
are comma-joined text, not JSON. -/
theorem c6_single_argument_serialization
    (repoRoot file_path sheet_name data_range agg_func : String)
    (data : List (List Scalar)) (rows values : List String)
    (columns : Option (List String)) :
    write_excel_cmd repoRoot file_path sheet_name data =
      ["java", "-cp", java_classpath repoRoot, "jp.isoittech.WriteExcelTool",
        file_path, sheet_name, json_dumps_matrix data] ∧
    (write_excel_cmd repoRoot file_path sheet_name data).length = 7 ∧
    create_pivot_table_cmd repoRoot file_path sheet_name data_range rows values columns agg_func =
      ["java", "-cp", java_classpath repoRoot, "jp.isoittech.CreatePivotTableTool",
        file_path, sheet_name, data_range, String.intercalate "," rows,
        String.intercalate "," values,
        (match columns with | some cs => String.intercalate "," cs | none => ""), agg_func] ∧
    (create_pivot_table_cmd repoRoot file_path sheet_name data_range rows values
      columns agg_func).length = 11 := by
  refine ⟨rfl, rfl, ?_, ?_⟩ <;> cases columns <;> rfl

/-- C7: under the sentinel-ok strategy, a zero-exit outcome yields the success
boolean `stdout contains the token OK` — for validate_formula_syntax and
`validate_excel_range` alike; absence of the token is a valid negative
result, not a raised failure. -/
theorem c7_sentinel_ok_contains (os : OsBehavior)
    (repoRoot file_path sheet_name formula start_cell : String) (end_cell : Option String)
    (r : CompletedProcess) (hos : ∀ c, os c = Sum.inl r) (hrc : r.returncode = 0) :
    validate_formula_syntax os repoRoot file_path sheet_name formula =
      Except.ok (pyInStr "OK" r.stdout) ∧
    validate_excel_range os repoRoot file_path sheet_name start_cell end_cell =
      Except.ok (pyInStr "OK" r.stdout) := by
  constructor
  · simp [ validate_formula_syntax, run_java, subprocess_run, hos, hrc]
  · simp [validate_excel_range, run_java, subprocess_run, hos, hrc]

/-- C7 witness: stdout exactly `OK` with exit 0 yields `true`; empty stdout
with exit 0 yields `false`, not a failure. -/
theorem c7_sentinel_ok_contains_witness :
    validate_formula_syntax (constOs ⟨0, "OK", ""⟩) "repo" "/mnt/data/b.xlsx" "Sheet1"
      "=SUM(A1:B1)" = Except.ok true ∧
    validate_formula_syntax (constOs ⟨0, "", ""⟩) "repo" "/mnt/data/b.xlsx" "Sheet1"
      "=SUM(A1:B1)" = Except.ok false := by
  have h1 := (c7_sentinel_ok_contains (constOs ⟨0, "OK", ""⟩) "repo" "/mnt/data/b.xlsx"
    "Sheet1" "=SUM(A1:B1)" "A1" none ⟨0, "OK", ""⟩ (fun _ => rfl) rfl).1
  have h2 := (c7_sentinel_ok_contains (constOs ⟨0, "", ""⟩) "repo" "/mnt/data/b.xlsx"
    "Sheet1" "=SUM(A1:B1)" "A1" none ⟨0, "", ""⟩ (fun _ => rfl) rfl).1
  exact ⟨h1.trans (by decide), h2.trans (by decide)⟩

/-- C8: a non-zero exit code is translated into a raised `RuntimeError` whose
message is the captured stderr when non-empty and otherwise the generic
"&lt;tool&gt; failed: N" text naming the operation and exit code; no non-zero
exit becomes success (`create_excel` and `read_excel`). -/
theorem c8_nonzero_exit_typed_failure (os : OsBehavior)
    (json_loads : String → Except String (List (List Scalar)))
    (repoRoot file_path sheet_name range_str : String) (r : CompletedProcess)
    (hos : ∀ c, os c = Sum.inl r) (hrc : r.returncode ≠ 0) :
    create_excel os repoRoot file_path sheet_name =
      Except.error (PyErr.runtimeError
        (if r.stderr = "" then "CreateExcelTool failed: " ++ toString r.returncode
         else r.stderr)) ∧
    read_excel os json_loads repoRoot file_path sheet_name range_str =
      Except.error (PyErr.runtimeError
        (if r.stderr = "" then "ReadExcelTool failed: " ++ toString r.returncode
         else r.stderr)) := by
  constructor
  · simp [create_excel, run_java, subprocess_run, hos, hrc, pyOrStr]
  · simp [read_excel, run_java, subprocess_run, hos, hrc, pyOrStr]

/-- C8 witness: exit 3 with stderr `disk full` surfaces the stderr; exit 3
with empty stderr surfaces the generic message with the exit code. -/
theorem c8_nonzero_exit_typed_failure_witness :
    create_excel (constOs ⟨3, "", "disk full"⟩) "repo" "/mnt/data/b.xlsx" "Sheet1" =
      Except.error (PyErr.runtimeError "disk full") ∧
    read_excel (constOs ⟨3, "", ""⟩) (fun _ => Except.ok []) "repo" "/mnt/data/b.xlsx"
      "Sheet1" "A1:C10" =
      Except.error (PyErr.runtimeError "ReadExcelTool failed: 3") := by
  have h1 := (c8_nonzero_exit_typed_failure (constOs ⟨3, "", "disk full"⟩)
    (fun _ => Except.ok []) "repo" "/mnt/data/b.xlsx" "Sheet1" "A1:C10"
    ⟨3, "", "disk full"⟩ (fun _ => rfl) (by decide)).1
  have h2 := (c8_nonzero_exit_typed_failure (constOs ⟨3, "", ""⟩)
    (fun _ => Except.ok []) "repo" "/mnt/data/b.xlsx" "Sheet1" "A1:C10"
    ⟨3, "", ""⟩ (fun _ => rfl) (by decide)).2
  exact ⟨h1.trans (by decide), h2.trans (by decide)⟩

/-- C9: a successful `tool_append_rows` surfaces exactly the first-empty-row
index reported by the external tool's anchor-column scan as `start_row`,
without re-deriving it in this layer. -/
theorem c9_start_row_unchanged (reportedFirstEmptyRow : Nat) (res : Resolver) (env : Env)
    (path sheet_name anchor_column : String) (rows : List (List Scalar))
    (rel : List String)
    (hbase : get_public_base_url env ≠ "")
    (hrel : relative_to (res path) (res (get_shared_directory env)) = some rel) :
    startRowOf (tool_append_rows reportedFirstEmptyRow res env path sheet_name rows
      anchor_column) = some reportedFirstEmptyRow := by
  simp only [tool_append_rows, append_rows, build_download_url_for_path, if_neg hbase,
    hrel, startRowOf]

/-- C9 witness: `rows=[[a,b],[c,d]]`, anchor column `A`, external tool
reporting first-empty-row 5 surfaces `start_row = 5`. -/
theorem c9_start_row_unchanged_witness :
    startRowOf (tool_append_rows 5 plainResolve exEnv "/mnt/data/book.xlsx" "Sheet1"
      [[Scalar.str "a", Scalar.str "b"], [Scalar.str "c", Scalar.str "d"]] "A") = some 5 :=
  c9_start_row_unchanged 5 plainResolve exEnv "/mnt/data/book.xlsx" "Sheet1" "A"
    [[Scalar.str "a", Scalar.str "b"], [Scalar.str "c", Scalar.str "d"]] ["book.xlsx"]
    (by decide) (by decide)

/-- C10: `build_download_url_for_path` checks the public-origin configuration
before any containment check: an empty normalized base URL raises the
configuration `RuntimeError` for every path, and the containment `ValueError`
can only arise when a non-empty origin is configured. -/
theorem c10_origin_checked_before_containment (res : Resolver) (env : Env) (p : String) :
    (get_public_base_url env = "" →
      build_download_url_for_path res env p =
        Except.error (UrlError.runtimeNotConfigured notConfiguredMsg)) ∧
    (∀ m, build_download_url_for_path res env p =
        Except.error (UrlError.valuePathNotContained m) →
      get_public_base_url env ≠ "") := by
  constructor
  · intro hb
    simp only [build_download_url_for_path, if_pos hb]
  · intro m hm hb
    simp only [build_download_url_for_path, if_pos hb] at hm
    simp at hm

/-- C10 witness: with an unset origin, even the uncontained `/etc/passwd`
raises the configuration error, not the containment error. -/
theorem c10_origin_checked_before_containment_witness :
    build_download_url_for_path plainResolve emptyBaseEnv "/etc/passwd" =
      Except.error (UrlError.runtimeNotConfigured notConfiguredMsg) :=
  (c10_origin_checked_before_containment plainResolve emptyBaseEnv "/etc/passwd").1 (by decide)
